import Mathlib

/-!
Shallow embedding of the x402 payment-protocol core of the Ap402 repository
(facilitator, payment middleware, server-side payment handler, client retry
driver), together with theorems settling the frozen claims about it.

External JavaScript builtins and network collaborators (JSON.parse, the Aptos
SDK ledger client, axios, the wallet signer) are modelled as oracle parameters:
the embedded functions are parameterised over their behaviour, exactly as the
spec treats them ("external collaborators consumed, not specified here").
-/

namespace X402

/-! ### A model of JavaScript JSON values

Used for the results of `JSON.parse` on the opaque transaction / signature
blobs.  Numbers are modelled as integers (every number the protocol handles —
amounts, deadlines, timestamps — is an integer). -/

inductive Json where
  | null
  | bool (b : Bool)
  | num (n : Int)
  | str (s : String)
  | arr (elems : List Json)
  | obj (fields : List (String × Json))

/-- JavaScript property access `j.k` on a parsed object: the first binding of
the key, `undefined` (here `none`) when absent or when `j` is not an object. -/
def Json.getField : Json → String → Option Json
  | .obj fields, k => fields.lookup k
  | _, _ => none

/-- JavaScript truthiness of a JSON value. -/
def Json.truthy : Json → Bool
  | .null => false
  | .bool b => b
  | .num n => n != 0
  | .str s => s != ""
  | .arr _ => true
  | .obj _ => true

/-- Truthiness of a possibly-`undefined` value (`undefined` is falsy). -/
def Json.truthyOpt : Option Json → Bool
  | none => false
  | some j => j.truthy

/-- Strict equality `v === "s"` of a possibly-`undefined` value with a string
literal. -/
def Json.eqStr : Option Json → String → Bool
  | some (.str t), s => t == s
  | _, _ => false

mutual

/-- `JSON.stringify` on the embedded values (string escaping elided: the
inputs reaching it in the claims carry no characters needing escapes). -/
def Json.stringify : Json → String
  | .null => "null"
  | .bool true => "true"
  | .bool false => "false"
  | .num n => toString n
  | .str s => "\"" ++ s ++ "\""
  | .arr xs => "[" ++ Json.stringifyList xs ++ "]"
  | .obj fs => "\x7b" ++ Json.stringifyFields fs ++ "\x7d"

def Json.stringifyList : List Json → String
  | [] => ""
  | [x] => Json.stringify x
  | x :: y :: xs => Json.stringify x ++ "," ++ Json.stringifyList (y :: xs)

def Json.stringifyFields : List (String × Json) → String
  | [] => ""
  | [(k, v)] => "\"" ++ k ++ "\":" ++ Json.stringify v
  | (k, v) :: f :: fs =>
      "\"" ++ k ++ "\":" ++ Json.stringify v ++ "," ++ Json.stringifyFields (f :: fs)

end

/-- The behaviour of the JavaScript builtin `JSON.parse` (an external runtime
capability): either the parsed value or the message of the thrown error. -/
def JsonParser := String → Except String Json

/-! ### Buffer.from(...).toString('hex')

`Buffer.from(s)` takes the UTF-8 bytes of `s`; the embedding covers the ASCII
strings the code feeds it (hex addresses and decimal timestamps), for which
the bytes are the character codes. -/

def hexDigit (n : Nat) : Char :=
  if n < 10 then Char.ofNat (48 + n) else Char.ofNat (87 + n)

/-- Hex encoding of the bytes of an (ASCII) character list, two digits each. -/
def bufferHexChars (cs : List Char) : List Char :=
  cs.flatMap fun c => [hexDigit (c.toNat / 16 % 16), hexDigit (c.toNat % 16)]

/-- The synthetic mock-mode transaction hash of `aptos-facilitator.ts` line 73:
`0x` + `Buffer.from(address + Date.now()).toString('hex').slice(0, 64)`. -/
def mockTransactionHash (address : String) (now : Nat) : String :=
  "0x" ++ String.mk ((bufferHexChars (address.data ++ (toString now).data)).take 64)

/-! ### Facilitator data model (`facilitator/src/types.ts`) -/

structure PaymentRequest where
  transaction : String
  signature : String
  publicKey : String
  address : String
  timestamp : Nat
deriving DecidableEq

structure PaymentVerification where
  isValid : Bool
  transactionHash : Option String
  error : Option String
  verifiedAt : Nat
deriving DecidableEq

structure FacilitatorConfig where
  aptosNetwork : String
  port : Nat
  mockMode : Bool
deriving DecidableEq

/-- An error raised by the ledger client (a JavaScript `Error`): its message,
and the `transactionHash` property the catch clause of `submitTransaction`
reads off it (generally absent). -/
structure LedgerError where
  message : String
  transactionHash : Option String
deriving DecidableEq

/-- The external Aptos ledger-client capability (the `@aptos-labs/ts-sdk`
client plus the fullnode REST endpoint): submission of a (transaction,
signature) pair returning a hash, and confirmation waiting with its 30s
timeout.  The byte-marshalling the code performs before submission only
re-encodes the opaque blob for this external transport and is folded into the
capability. -/
structure LedgerClient where
  submit : Json → Json → Except LedgerError String
  waitForTransaction : String → Except LedgerError Unit

def listIsPrefixOf : List Char → List Char → Bool
  | [], _ => true
  | _ :: _, [] => false
  | c :: cs, d :: ds => c == d && listIsPrefixOf cs ds

def listIncludes (pat : List Char) : List Char → Bool
  | [] => pat.isEmpty
  | d :: ds => listIsPrefixOf pat (d :: ds) || listIncludes pat ds

/-- JavaScript `String.prototype.includes`. -/
def strIncludes (s pat : String) : Bool := listIncludes pat.data s.data

/-- JavaScript `String.prototype.startsWith`. -/
def strStartsWith (s pre : String) : Bool := listIsPrefixOf pre.data s.data

namespace AptosFacilitator

/-- `AptosFacilitator.verifySignature` (lines 97–119): the body is a stub that
returns `true` unconditionally ("For now, return true for mock purposes"). -/
def verifySignature (_transaction _signature _publicKey _address : String) : Bool :=
  true

/-- The part of `submitTransaction` (lines 124–320) that runs before the
ledger-submission call: signature parsing / normalisation and the
wallet-message rejection.  Returns the (transaction, signature) pair handed to
the ledger client, or the error thrown on the way. -/
def prepareSubmission (parse : JsonParser) (transaction : Json) (sig : String) :
    Except LedgerError (Json × Json) := do
  -- transaction arrives already parsed (createRealVerification parses it),
  -- so the `typeof transaction === 'string'` re-parse branch is not taken
  let parsedTransaction := transaction
  let parsedSignature ←
    if strStartsWith sig "0x" then
      pure (Json.obj [("type", .str "ed25519_signature"),
                      ("public_key", ((parsedTransaction.getField "address").getD .null)),
                      ("signature", .str sig)])
    else
      match parse sig with
      | .ok j => pure j
      | .error msg => throw ⟨"Invalid signature format: " ++ msg, none⟩
  if Json.eqStr (parsedTransaction.getField "prefix") "APTOS" &&
      Json.truthyOpt (parsedTransaction.getField "message") then
    throw ⟨"Real mode requires actual blockchain transactions, not wallet message signatures. Please use X402Client to create proper Aptos transactions.", none⟩
  else
    let hasRaw := Json.truthyOpt (parsedTransaction.getField "rawTransaction")
    let transactionToSubmit :=
      if hasRaw then (parsedTransaction.getField "rawTransaction").getD .null
      else parsedTransaction
    let signatureToSubmit :=
      if hasRaw then
        (if Json.truthyOpt (parsedSignature.getField "authenticator")
          then (parsedSignature.getField "authenticator").getD .null
          else parsedSignature)
      else parsedSignature
    pure (transactionToSubmit, signatureToSubmit)

/-- `AptosFacilitator.submitTransaction` (lines 124–320): prepare, submit via
the ledger client, wait for confirmation; its catch clause turns an error
whose message mentions "timeout" or "confirmation" into a *returned hash*
(the error's own hash if present, otherwise a synthesised one), and wraps any
other error as `Failed to submit transaction: ...`. -/
def submitTransaction (parse : JsonParser) (ledger : LedgerClient)
    (transaction : Json) (sig : String) (now : Nat) : Except String String :=
  let body : Except LedgerError String := do
    let (transactionToSubmit, signatureToSubmit) ← prepareSubmission parse transaction sig
    let hash ← ledger.submit transactionToSubmit signatureToSubmit
    let _ ← ledger.waitForTransaction hash
    pure hash
  match body with
  | .ok h => .ok h
  | .error e =>
    if strIncludes e.message "timeout" || strIncludes e.message "confirmation" then
      .ok (e.transactionHash.getD
        ("0x" ++ String.mk ((bufferHexChars ((Json.stringify transaction).data
            ++ (toString now).data)).take 64)))
    else
      .error ("Failed to submit transaction: " ++ e.message)

/-- `AptosFacilitator.createRealVerification` (lines 325–365): parse the
transaction, check the (stubbed) signature, submit, and catch every failure
into an `isValid=false` result. -/
def createRealVerification (parse : JsonParser) (ledger : LedgerClient)
    (req : PaymentRequest) (now : Nat) : PaymentVerification :=
  match parse req.transaction with
  | .error msg =>
      { isValid := false, transactionHash := none, error := some msg, verifiedAt := now }
  | .ok transaction =>
    if !(verifySignature req.transaction req.signature req.publicKey req.address) then
      { isValid := false, transactionHash := none,
        error := some "Invalid signature", verifiedAt := now }
    else
      match submitTransaction parse ledger transaction req.signature now with
      | .ok hash =>
          { isValid := true, transactionHash := some hash, error := none, verifiedAt := now }
      | .error msg =>
          { isValid := false, transactionHash := none, error := some msg, verifiedAt := now }

/-- `AptosFacilitator.processPayment` (lines 36–92): dispatch on
`config.mockMode`; the mock branch parses the transaction, runs the stubbed
signature check, and fabricates a hash from the address and the clock; the
outer catch turns any thrown error into an `isValid=false` result. -/
def processPayment (config : FacilitatorConfig) (parse : JsonParser)
    (ledger : LedgerClient) (req : PaymentRequest) (now : Nat) : PaymentVerification :=
  if !config.mockMode then
    createRealVerification parse ledger req now
  else
    match parse req.transaction with
    | .error msg =>
        { isValid := false, transactionHash := none, error := some msg, verifiedAt := now }
    | .ok _transaction =>
      if !(verifySignature req.transaction req.signature req.publicKey req.address) then
        { isValid := false, transactionHash := none,
          error := some "Invalid signature", verifiedAt := now }
      else
        { isValid := true, transactionHash := some (mockTransactionHash req.address now),
          error := none, verifiedAt := now }

/-- Whether one invocation of `processPayment` reaches the ledger-submission
call.  The `AptosFacilitator` class has exactly two fields — the SDK handle
and the immutable config — and no cache or record of past invocations, so
this is a function of the invocation's arguments alone and every repeated
call re-evaluates it (and, when true, re-submits). -/
def submitsToLedger (config : FacilitatorConfig) (parse : JsonParser)
    (req : PaymentRequest) : Bool :=
  if config.mockMode then false
  else
    match parse req.transaction with
    | .error _ => false
    | .ok transaction =>
      if verifySignature req.transaction req.signature req.publicKey req.address then
        (prepareSubmission parse transaction req.signature).toBool
      else false

end AptosFacilitator

/-! ### Route matching (`payment-middleware.ts` lines 100–118)

`findMatchingRoute` escapes nothing: it replaces every `*` of the route key by
`.*` and tests the path against `^pattern$`.  `reMatch` implements exactly the
resulting regex semantics for route keys whose non-`*` characters are regex
literals (true of every route table in the repository): a `*` matches any
character sequence, including `/`, and everything else matches itself. -/

/-- All suffixes of a character list, longest first. -/
def suffixes : List Char → List (List Char)
  | [] => [[]]
  | c :: tail => (c :: tail) :: suffixes tail

/-- Anchored match of the translated pattern against the whole path: a `*`
segmentizes as `.*` — it may absorb any prefix of the remaining path (any
characters, `/` included) — and every other pattern character matches only
itself. -/
def reMatch : List Char → List Char → Bool
  | [], s => s.isEmpty
  | p :: ps, s =>
    if p = '*' then (suffixes s).any fun tail => reMatch ps tail
    else
      match s with
      | [] => false
      | c :: tail => p == c && reMatch ps tail

/-- `price` of a `PaymentRoute` (`facilitator/src/types.ts`): a plain
decimal string, or an `{ amount, asset: { address, decimals } }` object. -/
inductive PriceValue where
  | str (s : String)
  | obj (amount : String) (assetAddress : String) (decimals : Nat)
deriving DecidableEq

structure PaymentRoute where
  price : PriceValue
  network : String
deriving DecidableEq

/-- The wildcard scan of `findMatchingRoute`: the first route key containing a
`*` whose translated regex accepts the path. -/
def findWildcardRoute (path : String) : List (String × PaymentRoute) → Option PaymentRoute
  | [] => none
  | (routePath, cfg) :: rest =>
    if strIncludes routePath "*" && reMatch routePath.data path.data then some cfg
    else findWildcardRoute path rest

/-- `findMatchingRoute` (lines 100–118): exact key lookup first (`routes[path]`,
insertion order), then the wildcard scan. -/
def findMatchingRoute (path : String) (routes : List (String × PaymentRoute)) :
    Option PaymentRoute :=
  match routes.lookup path with
  | some r => some r
  | none => findWildcardRoute path routes

/-! ### The payment middleware (`payment-middleware.ts` lines 13–95) -/

/-- The `payment` object of a 402 body: `amount` holds the route's `price`
value verbatim in the middleware, and a plain string in `PaymentHandler`;
the middleware's 402 carries no nonce, `PaymentHandler`'s does. -/
structure PaymentChallenge where
  amount : PriceValue
  token : String
  recipient : String
  deadline : Nat
  nonce : Option String
deriving DecidableEq

structure X402Body where
  payment : PaymentChallenge
  message : String
  retryAfter : Nat
deriving DecidableEq

inductive MwBody where
  | x402 (b : X402Body)
  | err (error : String)
deriving DecidableEq

/-- Outcome of one middleware invocation: pass the request on (with the
verification attached for a paid request), or answer with a status and body. -/
inductive MwResult where
  | next (transactionHash : Option String) (verification : Option PaymentVerification)
  | respond (status : Nat) (body : MwBody)
deriving DecidableEq

/-- The facilitator config hard-wired by `createPaymentMiddleware`
(lines 18–22): testnet, port 3000, `mockMode: true`. -/
def middlewareConfig : FacilitatorConfig :=
  { aptosNetwork := "testnet", port := 3000, mockMode := true }

/-- The token string placed in every 402 body the middleware builds. -/
def aptosCoinToken : String := "0x1::aptos_coin::AptosCoin"

/-- The request handler returned by `createPaymentMiddleware` (lines 26–94).
`parseHeader` is `JSON.parse` applied to the `X-Payment` header (the parsed
object is used as a `PaymentRequest`); `now` is the clock when the request is
checked and `now2` the clock after verification (the code calls `Date.now()`
again there). -/
def paymentMiddlewareHandler (payTo : String) (routes : List (String × PaymentRoute))
    (parseHeader : String → Except String PaymentRequest)
    (parse : JsonParser) (ledger : LedgerClient)
    (path : String) (paymentHeader : Option String) (now now2 : Nat) : MwResult :=
  match findMatchingRoute path routes with
  | none => .next none none
  | some route =>
    match paymentHeader with
    | none =>
        .respond 402 (.x402
          { payment :=
              { amount := route.price, token := aptosCoinToken, recipient := payTo,
                deadline := now + 5 * 60 * 1000, nonce := none },
            message := "Payment required to access this resource", retryAfter := 5 })
    | some header =>
      match parseHeader header with
      | .error _ => .respond 400 (.err "Invalid payment header format")
      | .ok paymentRequest =>
        let verification :=
          AptosFacilitator.processPayment middlewareConfig parse ledger paymentRequest now
        if !verification.isValid then
          .respond 402 (.x402
            { payment :=
                { amount := route.price, token := aptosCoinToken, recipient := payTo,
                  deadline := now2 + 5 * 60 * 1000, nonce := none },
              message := "Payment verification failed: " ++ (verification.error.getD "undefined"),
              retryAfter := 5 })
        else
          .next verification.transactionHash (some verification)

/-! ### Server-side `PaymentHandler` (`src/unnamed/part_009`) -/

structure ServerConfig where
  port : Nat
  facilitatorUrl : String
  paymentAddress : String
  mockMode : Bool
deriving DecidableEq

namespace PaymentHandler

/-- `PaymentHandler.createPaymentRequired` (part_009 lines 18–35): amount is
the price string (or the object's `amount` field), token defaults to the
Aptos coin when the price is a string or its asset address is absent/empty,
deadline is five minutes from now, and the nonce comes from the (random)
nonce generator, passed here as an argument. -/
def createPaymentRequired (config : ServerConfig) (route : String)
    (price : PriceValue) (now : Nat) (nonce : String) : X402Body :=
  let amount : String :=
    match price with
    | .str s => s
    | .obj a _ _ => a
  let token : String :=
    match price with
    | .str _ => aptosCoinToken
    | .obj _ assetAddress _ => if assetAddress == "" then aptosCoinToken else assetAddress
  { payment :=
      { amount := .str amount, token := token, recipient := config.paymentAddress,
        deadline := now + 5 * 60 * 1000, nonce := some nonce },
    message := "Payment required to access " ++ route, retryAfter := 5 }

end PaymentHandler

/-! ### Client-side driver (`src/unnamed/part_005`, `client/src/aptos-utils.ts`) -/

/-- `PaymentPayload` of the client types (part_001). -/
structure PaymentPayload where
  amount : String
  token : String
  recipient : String
  deadline : Int
  nonce : Option String
deriving DecidableEq

structure SignedTransaction where
  rawTransaction : String
  signature : String
  publicKey : String
  address : String
deriving DecidableEq

structure HttpResponse where
  status : Nat
  body : Json

/-- Value of `BigInt(s)` for the strings `validatePaymentPayload` can reach
it with: an optional minus sign and decimal digits (the empty string is
already rejected by the falsy check before the call); anything else throws,
modelled as `none`. -/
def decDigitsVal (cs : List Char) : Option Nat :=
  if cs.isEmpty then none
  else if cs.all Char.isDigit then
    some (cs.foldl (fun acc c => acc * 10 + (c.toNat - 48)) 0)
  else none

def bigIntOfString (s : String) : Option Int :=
  match s.data with
  | '-' :: rest => (decDigitsVal rest).map fun n => -(n : Int)
  | cs => (decDigitsVal cs).map fun n => (n : Int)

/-- The client's read of `response.data.payment` at its declared
`PaymentPayload` type; `none` when the body carries no conforming object, in
which case every use below fails inside a try/catch. -/
def decodePaymentPayload (body : Json) : Option PaymentPayload :=
  match body.getField "payment" with
  | none => none
  | some p =>
    match p.getField "amount", p.getField "token",
          p.getField "recipient", p.getField "deadline" with
    | some (.str a), some (.str t), some (.str r), some (.num d) =>
        some { amount := a, token := t, recipient := r, deadline := d,
               nonce := match p.getField "nonce" with | some (.str n) => some n | _ => none }
    | _, _, _, _ => none

/-- `AptosUtils.validatePaymentPayload` (aptos-utils.ts lines 127–151):
required fields truthy, `BigInt(amount) > 0`, deadline in the future; its
try/catch turns any thrown error (including field access on a non-conforming
payload or a non-numeric amount) into `false`. -/
def AptosUtils.validatePaymentPayload (payload : Option PaymentPayload) (now : Nat) : Bool :=
  match payload with
  | none => false
  | some p =>
    if p.amount == "" || p.token == "" || p.recipient == "" || p.deadline == 0 then false
    else
      match bigIntOfString p.amount with
      | none => false
      | some v =>
        if v ≤ 0 then false
        else if p.deadline ≤ (now : Int) then false
        else true

inductive ClientResult where
  | ok (data : Json)
  | err (message : String)

namespace X402Client

/-- The HTTP transport as the client sees it: one request per attempt, the
argument telling whether the `X-Payment` header is attached.  `Except.error`
is an axios throw (network failure or a status ≥ 500 under
`validateStatus: status < 500`); `Except.ok` is any response with status
< 500, which axios returns without throwing. -/
def Server := Bool → Except String HttpResponse

/-- `X402Client.retryWithPayment` (part_005 lines 339–394): one retry with
the proof in `X-Payment`; a 402 on the retry and any status ≥ 400 are thrown
as terminal errors, an axios throw is wrapped as `Payment retry failed`.
The second component lists the payment flags of the requests this step sent. -/
def retryWithPayment (server : Server) (_st : SignedTransaction) (_now : Nat) :
    ClientResult × List Bool :=
  match server true with
  | .error msg => (.err ("Payment retry failed: " ++ msg), [true])
  | .ok resp =>
    if resp.status == 402 then
      (.err "Payment verification failed - server still requires payment", [true])
    else if 400 ≤ resp.status then
      (.err ("Request failed with status " ++ toString resp.status), [true])
    else
      (.ok resp.body, [true])

/-- `X402Client.handlePaymentRequired` (part_005 lines 292–334): validate the
challenge locally (structure, expiry, balance), produce a signed transaction
through the signer capability, and retry once; every local failure is thrown
to the caller without any retry.  `checkBalance` and `signer` are the
network/SDK oracles (`AptosUtils.checkBalance`, `createPaymentTransaction`). -/
def handlePaymentRequired (server : Server)
    (checkBalance : PaymentPayload → Bool)
    (signer : PaymentPayload → Except String SignedTransaction)
    (now : Nat) (resp : HttpResponse) : ClientResult × List Bool :=
  let payload := decodePaymentPayload resp.body
  if !(AptosUtils.validatePaymentPayload payload now) then
    (.err "Invalid payment payload received from server", [])
  else
    match payload with
    | none => (.err "Invalid payment payload received from server", [])
    | some payment =>
      if payment.deadline ≤ (now : Int) then
        (.err "Payment deadline has passed", [])
      else if !(checkBalance payment) then
        (.err "Insufficient balance for payment", [])
      else
        match signer payment with
        | .error msg => (.err msg, [])
        | .ok st => retryWithPayment server st now

/-- `X402Client.request` (part_005 lines 245–287): send the request as given;
a 402 hands over to `handlePaymentRequired`, any other status below 500 is
returned at once, an axios throw (status ≥ 500 or network error) propagates
to the caller.  The second component lists the payment flags of every request
sent, in order. -/
def request (server : Server)
    (checkBalance : PaymentPayload → Bool)
    (signer : PaymentPayload → Except String SignedTransaction)
    (now : Nat) : ClientResult × List Bool :=
  match server false with
  | .error msg => (.err msg, [false])
  | .ok resp =>
    if resp.status == 402 then
      let (r, sent) := handlePaymentRequired server checkBalance signer now resp
      (r, false :: sent)
    else
      (.ok resp.body, [false])

end X402Client

/-! ### Concrete fixtures used by the claim theorems -/

/-- The real-mode facilitator config (everything as `middlewareConfig` but
with `mockMode` off). -/
def realConfig : FacilitatorConfig :=
  { aptosNetwork := "testnet", port := 3000, mockMode := false }

/-- `JSON.parse` restricted to the concrete strings the fixtures carry:
`"{}"` parses to the empty object, a small transfer object parses to its
fields, anything else throws. -/
def parseFix : JsonParser := fun s =>
  if s = "{}" then .ok (.obj [])
  else if s = "\x7b\"amount\":\"1\",\"recipient\":\"0xattacker\"\x7d" then
    .ok (.obj [("amount", .str "1"), ("recipient", .str "0xattacker")])
  else .error "Unexpected token"

/-- A ledger on which submission succeeds and confirms promptly. -/
def okLedger : LedgerClient :=
  { submit := fun _ _ => .ok "0xsubmitted", waitForTransaction := fun _ => .ok () }

/-- A ledger on which submission succeeds but confirmation polling times out
(the 30-second bound of `waitForTransaction` elapses). -/
def timeoutLedger : LedgerClient :=
  { submit := fun _ _ => .ok "0xsubmitted",
    waitForTransaction := fun _ => .error { message := "transaction timeout", transactionHash := none } }

/-- A well-formed proof envelope whose transaction blob is the empty object. -/
def plainProof : PaymentRequest :=
  { transaction := "{}", signature := "0xsig", publicKey := "0xpub",
    address := "0xclient", timestamp := 10 }

/-- A proof whose decoded transfer pays 1 octa to `0xattacker` — far below a
route priced at 1000000 minor units, and to the wrong recipient. -/
def underpayingProof : PaymentRequest :=
  { transaction := "\x7b\"amount\":\"1\",\"recipient\":\"0xattacker\"\x7d",
    signature := "0xsig", publicKey := "0xpub", address := "0xclient", timestamp := 50 }

/-- A proof whose address field is shorter than 32 characters. -/
def shortAddressProof : PaymentRequest :=
  { transaction := "{}", signature := "0xsig", publicKey := "0xpub",
    address := "0xab", timestamp := 0 }

/-- A proof carrying the full-length (66-character) account address used by
the repository's test client. -/
def fullAddressProof : PaymentRequest :=
  { transaction := "{}", signature := "0xsig", publicKey := "0xpub",
    address := "0xbcfb4a60c030cb5dcab8adc7d723fcc6f2bbfa432f595ae8eb1bdc436b928cbd",
    timestamp := 10 }

/-! ### C10 -/

/-- C10: in mock mode `processPayment` returns `isValid = true` exactly when
`JSON.parse` succeeds on the proof's transaction field — the stubbed
`verifySignature` accepts unconditionally, so signature, publicKey, address,
amounts, recipient and deadlines are never consulted, and the only failure is
a parse error. -/
theorem mock_accepts_every_parseable_proof (network : String) (port : Nat)
    (parse : JsonParser) (ledger : LedgerClient) (req : PaymentRequest) (now : Nat) :
    (AptosFacilitator.processPayment ⟨network, port, true⟩ parse ledger req now).isValid
      = (parse req.transaction).toBool := by
  unfold AptosFacilitator.processPayment AptosFacilitator.verifySignature
  cases parse req.transaction <;> rfl

/-! ### C2 -/

/-- C2 (code evaluated at the failing input): the facilitator accepts a proof
that pays 1 minor unit to `0xattacker` — under any required amount, to a
recipient that is not the configured payment address — in the mock mode the
middleware wires up, and in real mode whenever the ledger accepts the
transfer; neither an `InsufficientAmount` nor a `WrongRecipient` failure
exists anywhere in `processPayment` or `createRealVerification` (the required
amount and the payment address are not even inputs of either function). -/
theorem underpaying_misdirected_proof_accepted :
    (AptosFacilitator.processPayment middlewareConfig parseFix okLedger underpayingProof 100).isValid
      = true
    ∧ (AptosFacilitator.processPayment realConfig parseFix okLedger underpayingProof 100).isValid
      = true := by
  exact ⟨by decide, by decide⟩

/-! ### C4 -/

/-- C4 counterexample: in mock mode, two `processPayment` calls with the
identical proof yield different synthetic transaction hashes when the clock
has moved — the hash is built from `address + Date.now()`, and with the
4-character address `0xab` the timestamp lands inside the first 32 hashed
bytes. -/
theorem mock_hash_differs_across_calls :
    (AptosFacilitator.processPayment middlewareConfig parseFix okLedger shortAddressProof 1).transactionHash
      ≠ (AptosFacilitator.processPayment middlewareConfig parseFix okLedger shortAddressProof 2).transactionHash := by
  decide

theorem bufferHexChars_append (xs ys : List Char) :
    bufferHexChars (xs ++ ys) = bufferHexChars xs ++ bufferHexChars ys := by
  unfold bufferHexChars
  exact List.flatMap_append xs ys _

theorem length_bufferHexChars (xs : List Char) :
    (bufferHexChars xs).length = 2 * xs.length := by
  induction xs with
  | nil => rfl
  | cons c cs ih =>
    unfold bufferHexChars at ih ⊢
    simp only [List.flatMap_cons, List.length_append, List.length_cons, ih]
    simp
    omega

/-- The synthetic mock hash ignores the timestamp as soon as the address is at
least 32 characters long: hex-encoding doubles lengths, and the slice keeps
only the first 64 hex digits. -/
theorem mockTransactionHash_time_independent (a : String) (h : 32 ≤ a.length)
    (t1 t2 : Nat) : mockTransactionHash a t1 = mockTransactionHash a t2 := by
  unfold mockTransactionHash
  have key : ∀ t : Nat,
      (bufferHexChars (a.data ++ (toString t).data)).take 64 = (bufferHexChars a.data).take 64 := by
    intro t
    rw [bufferHexChars_append]
    have hd : a.data.length = a.length := rfl
    exact List.take_append_of_le_length (by rw [length_bufferHexChars]; omega)
  rw [key t1, key t2]

/-- C4 amended: the mock verifier is deterministic in the proof whenever the
proof's address is at least 32 characters long (every well-formed Aptos
account address is 66): the timestamp is then sliced away and two calls with
the identical proof return the identical synthetic transactionHash; for
shorter addresses the hash depends on the call time. -/
theorem mock_hash_deterministic_for_long_addresses (network : String) (port : Nat)
    (parse : JsonParser) (ledger : LedgerClient) (req : PaymentRequest)
    (t1 t2 : Nat) (h : 32 ≤ req.address.length) :
    (AptosFacilitator.processPayment ⟨network, port, true⟩ parse ledger req t1).transactionHash
      = (AptosFacilitator.processPayment ⟨network, port, true⟩ parse ledger req t2).transactionHash := by
  unfold AptosFacilitator.processPayment AptosFacilitator.verifySignature
  cases parse req.transaction with
  | error msg => rfl
  | ok j => simpa using congrArg some (mockTransactionHash_time_independent req.address h t1 t2)

/-- Witness for the amended C4 at the repository's own test address. -/
theorem mock_hash_deterministic_witness :
    (AptosFacilitator.processPayment ⟨"testnet", 3000, true⟩ parseFix okLedger fullAddressProof 5).transactionHash
      = (AptosFacilitator.processPayment ⟨"testnet", 3000, true⟩ parseFix okLedger fullAddressProof 9).transactionHash :=
  mock_hash_deterministic_for_long_addresses "testnet" 3000 parseFix okLedger
    fullAddressProof 5 9 (by decide)

/-! ### C1 -/

/-- C1 (code evaluated at the failing input): `processPayment` keeps no
idempotence cache.  The `AptosFacilitator` class carries only the SDK handle
and the immutable config, so a repeat call with the identical proof is the
same stateless computation: in real mode each of the two calls reaches the
ledger-submission call again (`submitsToLedger` is true of the invocation's
arguments alone — the side effect occurs twice, not at most once), and the two
calls do not return the same `VerificationResult` either, in real mode or in
the mock mode the middleware wires (fresh `verifiedAt`, and in mock mode a
fresh time-dependent hash). -/
theorem repeat_call_resubmits_no_cached_result :
    AptosFacilitator.submitsToLedger realConfig parseFix plainProof = true
    ∧ AptosFacilitator.processPayment realConfig parseFix okLedger plainProof 1000
        ≠ AptosFacilitator.processPayment realConfig parseFix okLedger plainProof 2000
    ∧ AptosFacilitator.processPayment middlewareConfig parseFix okLedger plainProof 1000
        ≠ AptosFacilitator.processPayment middlewareConfig parseFix okLedger plainProof 2000 := by
  exact ⟨by decide, by decide, by decide⟩

/-! ### C5 -/

/-- C5 counterexample: when confirmation polling times out (the ledger's
`waitForTransaction` raises an error mentioning "timeout"), `processPayment`
does not return `isValid = false` with a reason — the catch clause of
`submitTransaction` swallows the timeout and returns a hash, so the result
claims the payment valid with no error recorded; the returned hash
`0x7b7d313030` is not even the submitted transaction's hash but one
fabricated from `JSON.stringify(transaction) + Date.now()`. -/
theorem confirmation_timeout_reported_valid :
    timeoutLedger.waitForTransaction "0xsubmitted"
        = .error { message := "transaction timeout", transactionHash := none }
    ∧ AptosFacilitator.processPayment realConfig parseFix timeoutLedger plainProof 100
        = { isValid := true, transactionHash := some "0x7b7d313030",
            error := none, verifiedAt := 100 } := by
  exact ⟨rfl, by decide⟩

/-- C5 amended: `processPayment` never throws past the component boundary and
always returns a populated `VerificationResult` — `isValid = true` always
comes with a transactionHash and `isValid = false` always with a descriptive
error string — for every proof, parser behaviour and ledger behaviour
(signature rejection, parse error, submission error); on a confirmation
timeout, however, the result is `isValid = true` with the submitted (or a
synthesised) hash, not an `isValid = false` failure. -/
theorem processPayment_total_and_populated (config : FacilitatorConfig)
    (parse : JsonParser) (ledger : LedgerClient) (req : PaymentRequest) (now : Nat) :
    ((AptosFacilitator.processPayment config parse ledger req now).isValid = true
      ∧ (AptosFacilitator.processPayment config parse ledger req now).transactionHash.isSome = true)
    ∨ ((AptosFacilitator.processPayment config parse ledger req now).isValid = false
      ∧ (AptosFacilitator.processPayment config parse ledger req now).error.isSome = true) := by
  unfold AptosFacilitator.processPayment AptosFacilitator.createRealVerification
    AptosFacilitator.verifySignature
  by_cases hm : config.mockMode
  · simp only [hm]
    cases parse req.transaction with
    | error msg => simp
    | ok j => simp
  · simp only [hm]
    cases parse req.transaction with
    | error msg => simp
    | ok j =>
      cases hsub : AptosFacilitator.submitTransaction parse ledger j req.signature now with
      | ok h => simp [hsub]
      | error msg => simp [hsub]

/-! ### C3 -/

/-- The route the wildcard fixtures protect. -/
def premiumRoute : PaymentRoute := { price := .str "1000000", network := "aptos-testnet" }

/-- C3 counterexample: `findMatchingRoute` translates `*` to the regex `.*`,
which crosses `/` boundaries, so the two-segment path `/premium/a/b` DOES
match the single-`*` pattern `/premium/*`. -/
theorem two_segments_match_single_star :
    findMatchingRoute "/premium/a/b" [("/premium/*", premiumRoute)] = some premiumRoute := by
  decide

theorem reMatch_star_any (s : List Char) : reMatch ['*'] s = true := by
  induction s with
  | nil => rfl
  | cons c tail ih =>
    show (reMatch [] (c :: tail) || (suffixes tail).any fun t => reMatch [] t) = true
    have h2 : ((suffixes tail).any fun t => reMatch [] t) = true := ih
    rw [h2, Bool.or_true]

theorem reMatch_cons_lit (c : Char) (hc : ¬(c = '*')) (ps : List Char) (d : Char)
    (tail : List Char) :
    reMatch (c :: ps) (d :: tail) = (c == d && reMatch ps tail) := by
  show (if c = '*' then (suffixes (d :: tail)).any (fun t => reMatch ps t)
        else (c == d && reMatch ps tail)) = (c == d && reMatch ps tail)
  rw [if_neg hc]

theorem reMatch_lit_prefix (p : List Char) (hp : ∀ c ∈ p, c ≠ '*') (q s : List Char) :
    reMatch (p ++ q) (p ++ s) = reMatch q s := by
  induction p with
  | nil => rfl
  | cons c cs ih =>
    rw [List.cons_append, List.cons_append,
        reMatch_cons_lit c (hp c (by simp)) (cs ++ q) c (cs ++ s)]
    rw [beq_self_eq_true, Bool.true_and]
    exact ih fun d hd => hp d (by simp [hd])

/-- C3 amended: a pattern's `*` matches any sequence of characters, `/`
included — any number of path segments, not exactly one: every path that
continues the pattern's literal prefix matches, so `/premium/<anything>`
(one segment, several segments, or nothing at all) matches `/premium/*`. -/
theorem star_matches_any_suffix (s : String) (r : PaymentRoute) :
    findMatchingRoute ("/premium/" ++ s) [("/premium/*", r)] = some r := by
  by_cases he : ("/premium/" ++ s) = "/premium/*"
  · rw [he]; simp [findMatchingRoute, List.lookup]
  · have hbeq : (("/premium/" ++ s) == "/premium/*") = false := beq_eq_false_iff_ne.mpr he
    have hmatch : reMatch "/premium/*".data ("/premium/" ++ s).data = true := by
      have hdata : ("/premium/" ++ s).data = "/premium/".data ++ s.data :=
        String.data_append "/premium/" s
      have hpat : "/premium/*".data = "/premium/".data ++ ['*'] := by decide
      rw [hdata, hpat, reMatch_lit_prefix "/premium/".data (by decide) ['*'] s.data]
      exact reMatch_star_any s.data
    unfold findMatchingRoute
    have hlook : List.lookup ("/premium/" ++ s) [("/premium/*", r)] = none := by
      simp [List.lookup, hbeq]
    rw [hlook]
    unfold findWildcardRoute
    have hinc : strIncludes "/premium/*" "*" = true := by decide
    rw [hinc, hmatch]
    rfl


def weatherRoutes : List (String × PaymentRoute) :=
  [("/weather", { price := .str "1000000", network := "aptos-testnet" })]

def headerParseFix : String → Except String PaymentRequest := fun s =>
  if s = "not json" then .error "Unexpected token o in JSON at position 1"
  else .ok plainProof

/-! Branch equations of the middleware handler, shared by the claim theorems. -/

theorem mw_route_miss (payTo : String) (routes : List (String × PaymentRoute))
    (parseHeader : String → Except String PaymentRequest) (parse : JsonParser)
    (ledger : LedgerClient) (path : String) (hdr : Option String) (now now2 : Nat)
    (h : findMatchingRoute path routes = none) :
    paymentMiddlewareHandler payTo routes parseHeader parse ledger path hdr now now2
      = .next none none := by
  simp [paymentMiddlewareHandler, h]

theorem mw_no_header (payTo : String) (routes : List (String × PaymentRoute))
    (route : PaymentRoute) (parseHeader : String → Except String PaymentRequest)
    (parse : JsonParser) (ledger : LedgerClient) (path : String) (now now2 : Nat)
    (h : findMatchingRoute path routes = some route) :
    paymentMiddlewareHandler payTo routes parseHeader parse ledger path none now now2
      = .respond 402 (.x402
          { payment :=
              { amount := route.price, token := aptosCoinToken, recipient := payTo,
                deadline := now + 5 * 60 * 1000, nonce := none },
            message := "Payment required to access this resource", retryAfter := 5 }) := by
  simp [paymentMiddlewareHandler, h]

theorem mw_bad_header (payTo : String) (routes : List (String × PaymentRoute))
    (route : PaymentRoute) (parseHeader : String → Except String PaymentRequest)
    (parse : JsonParser) (ledger : LedgerClient) (path hdr msg : String) (now now2 : Nat)
    (h : findMatchingRoute path routes = some route)
    (hp : parseHeader hdr = .error msg) :
    paymentMiddlewareHandler payTo routes parseHeader parse ledger path (some hdr) now now2
      = .respond 400 (.err "Invalid payment header format") := by
  simp [paymentMiddlewareHandler, h, hp]

theorem mw_verify_failed (payTo : String) (routes : List (String × PaymentRoute))
    (route : PaymentRoute) (parseHeader : String → Except String PaymentRequest)
    (parse : JsonParser) (ledger : LedgerClient) (path hdr : String)
    (pr : PaymentRequest) (now now2 : Nat)
    (h : findMatchingRoute path routes = some route)
    (hp : parseHeader hdr = .ok pr)
    (hv : (AptosFacilitator.processPayment middlewareConfig parse ledger pr now).isValid = false) :
    paymentMiddlewareHandler payTo routes parseHeader parse ledger path (some hdr) now now2
      = .respond 402 (.x402
          { payment :=
              { amount := route.price, token := aptosCoinToken, recipient := payTo,
                deadline := now2 + 5 * 60 * 1000, nonce := none },
            message := "Payment verification failed: "
              ++ ((AptosFacilitator.processPayment middlewareConfig parse ledger pr now).error.getD "undefined"),
            retryAfter := 5 }) := by
  simp [paymentMiddlewareHandler, h, hp, hv]

theorem mw_verify_ok (payTo : String) (routes : List (String × PaymentRoute))
    (route : PaymentRoute) (parseHeader : String → Except String PaymentRequest)
    (parse : JsonParser) (ledger : LedgerClient) (path hdr : String)
    (pr : PaymentRequest) (now now2 : Nat)
    (h : findMatchingRoute path routes = some route)
    (hp : parseHeader hdr = .ok pr)
    (hv : (AptosFacilitator.processPayment middlewareConfig parse ledger pr now).isValid = true) :
    paymentMiddlewareHandler payTo routes parseHeader parse ledger path (some hdr) now now2
      = .next (AptosFacilitator.processPayment middlewareConfig parse ledger pr now).transactionHash
          (some (AptosFacilitator.processPayment middlewareConfig parse ledger pr now)) := by
  simp [paymentMiddlewareHandler, h, hp, hv]

/-! ### C6 -/

/-- C6 amended: a request to a priced route whose `X-Payment` header is not
parseable JSON is answered with status 400 and body
`error: "Invalid payment header format"` — a single fixed non-5xx status, but
400, not the 402 the claim states, and with a plain error body rather than a
fresh challenge. -/
theorem malformed_header_gets_400 (payTo : String)
    (routes : List (String × PaymentRoute)) (route : PaymentRoute)
    (parseHeader : String → Except String PaymentRequest) (parse : JsonParser)
    (ledger : LedgerClient) (path hdr msg : String) (now now2 : Nat)
    (h : findMatchingRoute path routes = some route)
    (hp : parseHeader hdr = .error msg) :
    paymentMiddlewareHandler payTo routes parseHeader parse ledger path (some hdr) now now2
      = .respond 400 (.err "Invalid payment header format") :=
  mw_bad_header payTo routes route parseHeader parse ledger path hdr msg now now2 h hp

/-- Witness for the amended C6 at the `/weather` fixtures. -/
theorem malformed_header_gets_400_witness :
    paymentMiddlewareHandler "0xserver" weatherRoutes headerParseFix parseFix okLedger
        "/weather" (some "not json") 3000 4000
      = .respond 400 (.err "Invalid payment header format") :=
  malformed_header_gets_400 "0xserver" weatherRoutes
    { price := .str "1000000", network := "aptos-testnet" } headerParseFix parseFix okLedger
    "/weather" "not json" "Unexpected token o in JSON at position 1" 3000 4000
    (by decide) rfl

/-- C6 counterexample: on the `/weather` route with an unparseable
`X-Payment` header the middleware responds with status 400, not 402. -/
theorem malformed_header_gets_400_cx :
    paymentMiddlewareHandler "0xserver" weatherRoutes headerParseFix parseFix okLedger
        "/weather" (some "not json") 1000 2000
      = .respond 400 (.err "Invalid payment header format") := by decide

/-! ### C7 -/

/-- C7: a request to a priced route with no `X-Payment` header is answered
402 with a payment object whose `amount` is the route's configured price
verbatim (and `PaymentHandler.createPaymentRequired` likewise copies a string
price into the challenge amount unchanged); the absence of the header
produces the challenge response, never an error. -/
theorem missing_header_402_amount_verbatim (payTo : String)
    (routes : List (String × PaymentRoute)) (route : PaymentRoute)
    (parseHeader : String → Except String PaymentRequest) (parse : JsonParser)
    (ledger : LedgerClient) (path : String) (now now2 : Nat)
    (h : findMatchingRoute path routes = some route) :
    paymentMiddlewareHandler payTo routes parseHeader parse ledger path none now now2
      = .respond 402 (.x402
          { payment :=
              { amount := route.price, token := aptosCoinToken, recipient := payTo,
                deadline := now + 5 * 60 * 1000, nonce := none },
            message := "Payment required to access this resource", retryAfter := 5 })
    ∧ ∀ config routeName s now3 nonce,
        (PaymentHandler.createPaymentRequired config routeName (.str s) now3 nonce).payment.amount
          = .str s := by
  constructor
  · exact mw_no_header payTo routes route parseHeader parse ledger path now now2 h
  · intro config routeName s now3 nonce
    rfl

def serverCfgFix : ServerConfig :=
  { port := 4021, facilitatorUrl := "http://localhost:3001",
    paymentAddress := "0xserver", mockMode := true }

/-- Witness for C7 on the spec's own scenario: route `/weather` priced at
"1000000" minor units, no proof header, so the 402 carries amount "1000000". -/
theorem missing_header_402_witness :
    paymentMiddlewareHandler "0xserver" weatherRoutes headerParseFix parseFix okLedger
        "/weather" none 1000 2000
      = .respond 402 (.x402
          { payment :=
              { amount := .str "1000000", token := aptosCoinToken, recipient := "0xserver",
                deadline := 1000 + 5 * 60 * 1000, nonce := none },
            message := "Payment required to access this resource", retryAfter := 5 })
    ∧ (PaymentHandler.createPaymentRequired serverCfgFix
          "/weather" (.str "1000000") 1000 "nonce0").payment.amount = .str "1000000" :=
  ⟨(missing_header_402_amount_verbatim "0xserver" weatherRoutes
      { price := .str "1000000", network := "aptos-testnet" } headerParseFix parseFix okLedger
      "/weather" 1000 2000 (by decide)).1,
   (missing_header_402_amount_verbatim "0xserver" weatherRoutes
      { price := .str "1000000", network := "aptos-testnet" } headerParseFix parseFix okLedger
      "/weather" 1000 2000 (by decide)).2 serverCfgFix "/weather" "1000000" 1000 "nonce0"⟩

/-! ### C8 -/

/-- C8: every challenge issued in a 402 — by
`PaymentHandler.createPaymentRequired` and by either 402 branch of the
payment middleware — has deadline exactly its issuance clock reading plus the
five-minute window (5 * 60 * 1000 ms), hence strictly greater than the
issuance time. -/
theorem challenge_deadline_issuance_plus_window :
    (∀ config routeName price now nonce,
      (PaymentHandler.createPaymentRequired config routeName price now nonce).payment.deadline
          = now + 5 * 60 * 1000
        ∧ now < (PaymentHandler.createPaymentRequired config routeName price now nonce).payment.deadline)
    ∧ (∀ payTo routes parseHeader parse ledger path hdr now now2 status b,
        paymentMiddlewareHandler payTo routes parseHeader parse ledger path hdr now now2
            = .respond status (.x402 b)
        → (b.payment.deadline = now + 5 * 60 * 1000 ∧ now < b.payment.deadline)
          ∨ (b.payment.deadline = now2 + 5 * 60 * 1000 ∧ now2 < b.payment.deadline)) := by
  constructor
  · intro config routeName price now nonce
    refine ⟨rfl, ?_⟩
    show now < now + 5 * 60 * 1000
    omega
  · intro payTo routes parseHeader parse ledger path hdr now now2 status b hresp
    cases hfind : findMatchingRoute path routes with
    | none =>
      rw [mw_route_miss payTo routes parseHeader parse ledger path hdr now now2 hfind] at hresp
      simp at hresp
    | some route =>
      cases hdr with
      | none =>
        rw [mw_no_header payTo routes route parseHeader parse ledger path now now2 hfind] at hresp
        simp only [MwResult.respond.injEq, MwBody.x402.injEq] at hresp
        left
        rw [← hresp.2]
        exact ⟨rfl, by show now < now + 5 * 60 * 1000; omega⟩
      | some header =>
        cases hph : parseHeader header with
        | error m =>
          rw [mw_bad_header payTo routes route parseHeader parse ledger path header m now now2
            hfind hph] at hresp
          simp at hresp
        | ok pr =>
          cases hv : (AptosFacilitator.processPayment middlewareConfig parse ledger pr now).isValid with
          | true =>
            rw [mw_verify_ok payTo routes route parseHeader parse ledger path header pr now now2
              hfind hph hv] at hresp
            simp at hresp
          | false =>
            rw [mw_verify_failed payTo routes route parseHeader parse ledger path header pr now now2
              hfind hph hv] at hresp
            simp only [MwResult.respond.injEq, MwBody.x402.injEq] at hresp
            right
            rw [← hresp.2]
            exact ⟨rfl, by show now2 < now2 + 5 * 60 * 1000; omega⟩


/-- The 402 body the middleware produces for `/weather` with no header at
time 1000. -/
def mwWitnessBody : X402Body :=
  { payment :=
      { amount := .str "1000000", token := aptosCoinToken, recipient := "0xserver",
        deadline := 1000 + 5 * 60 * 1000, nonce := none },
    message := "Payment required to access this resource", retryAfter := 5 }

/-- Witness for C8 at the concrete `/weather` fixtures. -/
theorem challenge_deadline_witness :
    ((PaymentHandler.createPaymentRequired serverCfgFix "/weather" (.str "1000000") 1000 "n0").payment.deadline
        = 1000 + 5 * 60 * 1000
      ∧ 1000 < (PaymentHandler.createPaymentRequired serverCfgFix "/weather"
          (.str "1000000") 1000 "n0").payment.deadline)
    ∧ ((mwWitnessBody.payment.deadline = 1000 + 5 * 60 * 1000
          ∧ 1000 < mwWitnessBody.payment.deadline)
      ∨ (mwWitnessBody.payment.deadline = 2000 + 5 * 60 * 1000
          ∧ 2000 < mwWitnessBody.payment.deadline)) :=
  ⟨challenge_deadline_issuance_plus_window.1 serverCfgFix "/weather" (.str "1000000") 1000 "n0",
   challenge_deadline_issuance_plus_window.2 "0xserver" weatherRoutes headerParseFix parseFix
     okLedger "/weather" none 1000 2000 402 mwWitnessBody (by decide)⟩


/-! ### C9 -/

/-- A well-formed, unexpired challenge body (deadline far in the future). -/
def validChallengeBody : Json :=
  .obj [("payment", .obj
    [("amount", .str "1000000"), ("token", .str aptosCoinToken),
     ("recipient", .str "0xserver"), ("deadline", .num 10000000)])]

/-- A challenge body whose deadline (5) already passed. -/
def expiredChallengeBody : Json :=
  .obj [("payment", .obj
    [("amount", .str "1000000"), ("token", .str aptosCoinToken),
     ("recipient", .str "0xserver"), ("deadline", .num 5)])]

/-- A signer capability that always produces a signed transaction. -/
def signerFix : PaymentPayload → Except String SignedTransaction := fun _ =>
  .ok { rawTransaction := "{}", signature := "0xsig", publicKey := "0xpub",
        address := "0xclient" }

/-- A server that answers the unpaid request 402 with an expired challenge and
would answer a paid retry 200. -/
def expiredChallengeServer : X402Client.Server := fun withPayment =>
  if withPayment then .ok { status := 200, body := .str "resource" }
  else .ok { status := 402, body := expiredChallengeBody }

/-- A server that answers 402 with a valid challenge on every attempt. -/
def always402Server : X402Client.Server := fun _ =>
  .ok { status := 402, body := validChallengeBody }

/-- C9 counterexample: a first 402 does not always lead to a retry — when the
challenge it carries is already expired (or otherwise fails local
validation), the driver surfaces the error after the single unpaid request,
never re-issuing it with a proof. -/
theorem first_402_not_always_retried :
    expiredChallengeServer false = .ok { status := 402, body := expiredChallengeBody }
    ∧ (X402Client.request expiredChallengeServer (fun _ => true) signerFix 1000).2 = [false]
    ∧ (X402Client.request expiredChallengeServer (fun _ => true) signerFix 1000).1
        = .err "Invalid payment payload received from server" :=
  ⟨rfl, rfl, rfl⟩

theorem retryWithPayment_sends (server : X402Client.Server) (st : SignedTransaction)
    (now : Nat) : (X402Client.retryWithPayment server st now).2 = [true] := by
  unfold X402Client.retryWithPayment
  cases server true with
  | error m => rfl
  | ok resp =>
    by_cases h : (resp.status == 402) = true
    · simp [h]
    · simp only [Bool.not_eq_true] at h
      by_cases h2 : 400 ≤ resp.status
      · simp [h, h2]
      · simp [h, h2]

theorem handlePaymentRequired_sends (server : X402Client.Server)
    (checkBalance : PaymentPayload → Bool)
    (signer : PaymentPayload → Except String SignedTransaction)
    (now : Nat) (resp : HttpResponse) :
    (X402Client.handlePaymentRequired server checkBalance signer now resp).2 = []
    ∨ (X402Client.handlePaymentRequired server checkBalance signer now resp).2 = [true] := by
  cases hdec : decodePaymentPayload resp.body with
  | none =>
    left
    simp [X402Client.handlePaymentRequired, hdec, AptosUtils.validatePaymentPayload]
  | some payment =>
    by_cases hval : AptosUtils.validatePaymentPayload (some payment) now
    · by_cases hd : payment.deadline ≤ (now : Int)
      · left; simp [X402Client.handlePaymentRequired, hdec, hval, hd]
      · by_cases hb : checkBalance payment
        · cases hs : signer payment with
          | error m =>
            left; simp [X402Client.handlePaymentRequired, hdec, hval, hd, hb, hs]
          | ok st =>
            right
            simp [X402Client.handlePaymentRequired, hdec, hval, hd, hb, hs]
            exact retryWithPayment_sends server st now
        · left; simp [X402Client.handlePaymentRequired, hdec, hval, hd, hb]
    · left
      simp only [Bool.not_eq_true] at hval
      simp [X402Client.handlePaymentRequired, hdec, hval]

theorem handlePaymentRequired_retry_402 (server : X402Client.Server)
    (checkBalance : PaymentPayload → Bool)
    (signer : PaymentPayload → Except String SignedTransaction)
    (now : Nat) (resp resp2 : HttpResponse)
    (h3 : server true = .ok resp2) (h4 : resp2.status = 402) :
    (X402Client.handlePaymentRequired server checkBalance signer now resp).1
        = .err "Payment verification failed - server still requires payment"
    ∨ (X402Client.handlePaymentRequired server checkBalance signer now resp).2 = [] := by
  cases hdec : decodePaymentPayload resp.body with
  | none =>
    right
    simp [X402Client.handlePaymentRequired, hdec, AptosUtils.validatePaymentPayload]
  | some payment =>
    by_cases hval : AptosUtils.validatePaymentPayload (some payment) now
    · by_cases hd : payment.deadline ≤ (now : Int)
      · right; simp [X402Client.handlePaymentRequired, hdec, hval, hd]
      · by_cases hb : checkBalance payment
        · cases hs : signer payment with
          | error m =>
            right; simp [X402Client.handlePaymentRequired, hdec, hval, hd, hb, hs]
          | ok st =>
            left
            simp only [X402Client.handlePaymentRequired, hdec, hval, hd, hb, hs]
            simp only [if_true, Bool.not_true, Bool.false_eq_true, if_false]
            unfold X402Client.retryWithPayment
            rw [h3]
            simp [h4]
        · right; simp [X402Client.handlePaymentRequired, hdec, hval, hd, hb]
    · right
      simp only [Bool.not_eq_true] at hval
      simp [X402Client.handlePaymentRequired, hdec, hval]

/-- Under a well-formed, unexpired, affordable challenge and a successful
signer, `handlePaymentRequired` really performs the paid retry: its sent list
is exactly one request carrying the `X-Payment` header. -/
theorem handlePaymentRequired_retries (server : X402Client.Server)
    (checkBalance : PaymentPayload → Bool)
    (signer : PaymentPayload → Except String SignedTransaction)
    (now : Nat) (resp : HttpResponse) (payment : PaymentPayload) (st : SignedTransaction)
    (hdec : decodePaymentPayload resp.body = some payment)
    (hval : AptosUtils.validatePaymentPayload (some payment) now = true)
    (hd : ¬(payment.deadline ≤ (now : Int)))
    (hb : checkBalance payment = true)
    (hs : signer payment = .ok st) :
    (X402Client.handlePaymentRequired server checkBalance signer now resp).2 = [true] := by
  simp only [X402Client.handlePaymentRequired, hdec, hval, hd, hb, hs, Bool.not_true,
    Bool.false_eq_true, if_false, if_true]
  exact retryWithPayment_sends server st now

/-- C9 amended: the driver retries at most once — every execution sends
either only the unpaid request or the unpaid request followed by exactly one
paid retry; a first response with any status other than 402 is returned
immediately with no payment attempt; whenever the first response is a 402
the outcome is either the terminal "server still requires payment" error
(the retry was made and was answered 402 again — never a further retry) or a
locally-surfaced failure with no retry at all (malformed or expired
challenge, insufficient balance, or signer failure); and when the first
response is a 402 whose challenge passes local validation and signing, the
driver does re-issue the request exactly once with the `X-Payment` header
attached (the sent list is precisely `[false, true]`). -/
theorem client_retries_at_most_once (server : X402Client.Server)
    (checkBalance : PaymentPayload → Bool)
    (signer : PaymentPayload → Except String SignedTransaction) (now : Nat) :
    ((X402Client.request server checkBalance signer now).2 = [false]
      ∨ (X402Client.request server checkBalance signer now).2 = [false, true])
    ∧ (∀ resp, server false = .ok resp → resp.status ≠ 402 →
        X402Client.request server checkBalance signer now = (.ok resp.body, [false]))
    ∧ (∀ resp resp2, server false = .ok resp → resp.status = 402 →
        server true = .ok resp2 → resp2.status = 402 →
        (X402Client.request server checkBalance signer now).1
            = .err "Payment verification failed - server still requires payment"
          ∨ (X402Client.request server checkBalance signer now).2 = [false])
    ∧ (∀ resp payment st, server false = .ok resp → resp.status = 402 →
        decodePaymentPayload resp.body = some payment →
        AptosUtils.validatePaymentPayload (some payment) now = true →
        ¬(payment.deadline ≤ (now : Int)) →
        checkBalance payment = true →
        signer payment = .ok st →
        (X402Client.request server checkBalance signer now).2 = [false, true]) := by
  refine ⟨?_, ?_, ?_, ?_⟩
  · unfold X402Client.request
    cases hs : server false with
    | error m => left; rfl
    | ok resp =>
      by_cases h402 : (resp.status == 402) = true
      · simp only [h402, if_true]
        rcases handlePaymentRequired_sends server checkBalance signer now resp with h | h
        · left
          cases hpair : X402Client.handlePaymentRequired server checkBalance signer now resp with
          | mk r sent => rw [hpair] at h; simp at h; simp [h]
        · right
          cases hpair : X402Client.handlePaymentRequired server checkBalance signer now resp with
          | mk r sent => rw [hpair] at h; simp at h; simp [h]
      · simp only [Bool.not_eq_true] at h402
        simp [h402]
  · intro resp hs hne
    unfold X402Client.request
    rw [hs]
    have h402 : (resp.status == 402) = false := by
      simp only [beq_eq_false_iff_ne, ne_eq]
      exact hne
    simp [h402]
  · intro resp resp2 h1 h2 h3 h4
    unfold X402Client.request
    rw [h1]
    have h402 : (resp.status == 402) = true := by
      simp [h2]
    simp only [h402, if_true]
    rcases handlePaymentRequired_retry_402 server checkBalance signer now resp resp2 h3 h4 with h | h
    · left
      cases hpair : X402Client.handlePaymentRequired server checkBalance signer now resp with
      | mk r sent => rw [hpair] at h; simpa using h
    · right
      cases hpair : X402Client.handlePaymentRequired server checkBalance signer now resp with
      | mk r sent => rw [hpair] at h; simp at h; simp [h]
  · intro resp payment st h1 _h2 hdec hval hd hb hsg
    unfold X402Client.request
    rw [h1]
    have h402 : (resp.status == 402) = true := by
      simp [_h2]
    simp only [h402, if_true]
    have h := handlePaymentRequired_retries server checkBalance signer now resp payment st
      hdec hval hd hb hsg
    cases hpair : X402Client.handlePaymentRequired server checkBalance signer now resp with
    | mk r sent => rw [hpair] at h; simp at h; simp [h]

/-- The payload the client decodes out of `validChallengeBody`. -/
def validChallengePayload : PaymentPayload :=
  { amount := "1000000", token := aptosCoinToken, recipient := "0xserver",
    deadline := 10000000, nonce := none }

/-- Witness for the amended C9: against a server that answers 402 on every
attempt (with a valid challenge), the driver really sends the unpaid request
followed by exactly one paid retry — sent list `[false, true]` — and ends in
the terminal error or with no retry; it never loops. -/
theorem client_retries_witness :
    (X402Client.request always402Server (fun _ => true) signerFix 1000).2 = [false, true]
    ∧ ((X402Client.request always402Server (fun _ => true) signerFix 1000).1
        = .err "Payment verification failed - server still requires payment"
      ∨ (X402Client.request always402Server (fun _ => true) signerFix 1000).2 = [false]) :=
  ⟨(client_retries_at_most_once always402Server (fun _ => true) signerFix 1000).2.2.2
      { status := 402, body := validChallengeBody } validChallengePayload
      { rawTransaction := "{}", signature := "0xsig", publicKey := "0xpub",
        address := "0xclient" }
      rfl rfl rfl (by decide) (by decide) rfl rfl,
   (client_retries_at_most_once always402Server (fun _ => true) signerFix 1000).2.2.1
      { status := 402, body := validChallengeBody } { status := 402, body := validChallengeBody }
      rfl rfl rfl rfl⟩


end X402
